import Mathlib

/-
Shallow embedding of the batch-OCR core of the repository
(src/core/image_sorter.py, src/core/ocr_processor.py, src/core/online_ocr.py,
src/core/offline_ocr.py, src/core/result_formatter.py, src/core/types.py).

Filesystem metadata, the tesseract engine, the remote LLM client, the wall
clock and the random shuffle are external effects; they are embedded as
explicit environment records (oracles), so every definition is a pure,
executable function of its inputs plus that environment.  Wall-clock
durations (Python floats) are modelled as rationals, and fixed-decimal /
thousands-separated number rendering is abstracted as plain `toString`
(no claim below inspects the digits of a rendered number).
-/

namespace OCR

/-- OCRResult dataclass (src/core/types.py, lines 10-17): per-image outcome. -/
structure OCRResult where
  file_path : String
  success : Bool
  text_content : String
  error_message : Option String := none
  processing_time : ℚ := 0
  deriving DecidableEq

/-- Python `str(x)` applied to an `Optional[str]` (prints `None` for absent). -/
def optStr : Option String → String
  | none => "None"
  | some s => s

/-- Python `str.strip()`: drop leading and trailing whitespace. -/
def strip (s : String) : String :=
  String.mk (((s.data.dropWhile Char.isWhitespace).reverse.dropWhile Char.isWhitespace).reverse)

/-- Python `str.lower()`. -/
def lower (s : String) : String :=
  String.mk (s.data.map Char.toLower)

/-- Python `int(part)` for a digit-only string. -/
def digitsToNat (s : String) : Nat :=
  s.data.foldl (fun n c => n * 10 + (c.toNat - 48)) 0

/-- `os.path.basename`: the part of the path after the last separator. -/
def basename (p : String) : String :=
  String.mk (p.data.foldl (fun acc c => if c = '/' then [] else acc ++ [c]) [])

/-- A string of `n` copies of character `c` (Python `c * n`). -/
def repeatChar (c : Char) (n : Nat) : String :=
  String.mk (List.replicate n c)

/-! ## ImageSorter (src/core/image_sorter.py) -/

/-- One component of a natural-sort key: a digit run converted to a number or
a lowercased non-digit run (`_natural_sort_key.convert_part`, lines 76-78). -/
inductive KeyPart where
  | str (s : String)
  | num (n : Nat)
  deriving DecidableEq

/-- Maximal runs of a character list, each tagged with whether it is a digit
run; adjacent runs always differ in their tag. -/
def charRuns : List Char → List (Bool × String)
  | [] => []
  | c :: cs =>
    match charRuns cs with
    | (d, run) :: rest =>
      if d = c.isDigit then (d, String.singleton c ++ run) :: rest
      else (c.isDigit, String.singleton c) :: (d, run) :: rest
    | [] => [(c.isDigit, String.singleton c)]

/-- `re.split(r'(\d+)', text)`: cut a string into maximal runs, keeping the
digit runs; the result alternates non-digit run, digit run, non-digit run, …
starting and ending with a (possibly empty) non-digit run. -/
def splitDigitRuns (s : String) : List String :=
  match charRuns s.toList with
  | [] => [""]
  | runs =>
    let pre := if (runs.headD (false, "")).1 = true then [""] else []
    let post := if (runs.getLastD (false, "")).1 = true then [""] else []
    pre ++ runs.map Prod.snd ++ post

/-- `convert_part` (lines 76-78): digit-only parts become numbers, others are
lowercased (Python `int(part) if part.isdigit() else part.lower()`). -/
def convertPart (part : String) : KeyPart :=
  if part ≠ "" ∧ part.data.all Char.isDigit then
    KeyPart.num (digitsToNat part)
  else
    KeyPart.str (lower part)

/-- `_natural_sort_key` (lines 65-82). -/
def naturalSortKey (text : String) : List KeyPart :=
  (splitDigitRuns text).map convertPart

/-- Python `<` on one key component.  Keys produced by `naturalSortKey`
alternate string components (even positions) and numeric components (odd
positions), so two keys never present a string against a number at the same
position; the mixed cases below are therefore unreachable (in Python they
would raise `TypeError`) and are given an arbitrary fixed value. -/
def keyPartLT : KeyPart → KeyPart → Bool
  | KeyPart.str a, KeyPart.str b => a < b
  | KeyPart.num a, KeyPart.num b => a < b
  | KeyPart.num _, KeyPart.str _ => true
  | KeyPart.str _, KeyPart.num _ => false

/-- Python `<` on key lists: lexicographic, a strict prefix is smaller. -/
def keyLT : List KeyPart → List KeyPart → Bool
  | [], [] => false
  | [], _ :: _ => true
  | _ :: _, [] => false
  | a :: as, b :: bs => if a = b then keyLT as bs else keyPartLT a b

/-- Filesystem metadata environment for the sorter: `none` models an
`OSError`/`IOError` from `os.stat`/`os.path.getmtime`/`os.path.getsize`;
`shuffle` models `random.shuffle`. -/
structure SortFS where
  birthtime : String → Option ℚ
  mtime : String → Option ℚ
  size : String → Option Nat
  shuffle : List String → List String

/-- `_get_file_modification_time` (lines 129-140): 0.0 on error. -/
def getFileModificationTime (fs : SortFS) (p : String) : ℚ :=
  (fs.mtime p).getD 0

/-- `_get_file_creation_time` (lines 111-127): birthtime when available,
falling back to the modification time on error. -/
def getFileCreationTime (fs : SortFS) (p : String) : ℚ :=
  (fs.birthtime p).getD (getFileModificationTime fs p)

/-- `_get_file_size` (lines 142-153): 0 on error. -/
def getFileSize (fs : SortFS) (p : String) : Nat :=
  (fs.size p).getD 0

/-- Python `sorted(l, key=k)`: stable sort by key, using only `<` on keys
(`a` may precede `b` exactly when `not (k b < k a)`). -/
def sortedByKey (lt : α → α → Bool) (key : String → α) (l : List String) : List String :=
  l.mergeSort (fun a b => !(lt (key b) (key a)))

/-- Python `sorted(l, key=k, reverse=True)`: stable descending sort. -/
def sortedByKeyRev (lt : α → α → Bool) (key : String → α) (l : List String) : List String :=
  l.mergeSort (fun a b => !(lt (key a) (key b)))

/-- `_sort_natural` (lines 84-91). -/
def sortNatural (l : List String) : List String :=
  sortedByKey keyLT (fun x => naturalSortKey (basename x)) l

/-- `_sort_alphabetical` (lines 93-100). -/
def sortAlphabetical (l : List String) : List String :=
  sortedByKey (fun a b => a < b) (fun x => lower (basename x)) l

/-- `_sort_reverse_alphabetical` (lines 102-109). -/
def sortReverseAlphabetical (l : List String) : List String :=
  sortedByKeyRev (fun a b => a < b) (fun x => lower (basename x)) l

/-- `_sort_by_creation_time` (lines 155-162). -/
def sortByCreationTime (fs : SortFS) (l : List String) : List String :=
  sortedByKey (fun a b => a < b) (getFileCreationTime fs) l

/-- `_sort_by_modification_time` (lines 164-171). -/
def sortByModificationTime (fs : SortFS) (l : List String) : List String :=
  sortedByKey (fun a b => a < b) (getFileModificationTime fs) l

/-- `_sort_by_file_size` (lines 173-180). -/
def sortByFileSize (fs : SortFS) (l : List String) : List String :=
  sortedByKey (fun a b => a < b) (getFileSize fs) l

/-- `_sort_by_file_size_desc` (lines 182-189). -/
def sortByFileSizeDesc (fs : SortFS) (l : List String) : List String :=
  sortedByKeyRev (fun a b => a < b) (getFileSize fs) l

/-- `_sort_random` (lines 191-201), with the shuffle drawn from the
environment. -/
def sortRandom (fs : SortFS) (l : List String) : List String :=
  fs.shuffle l

/-- The registry `self.sort_methods` (lines 23-32), in source order. -/
def sortMethodNames : List String :=
  ["natural", "alphabetical", "creation_time", "modification_time",
   "file_size", "file_size_desc", "reverse_alphabetical", "random"]

/-- Dispatch through the registry. -/
def applySortMethod (fs : SortFS) (method : String) (l : List String) : List String :=
  if method = "natural" then sortNatural l
  else if method = "alphabetical" then sortAlphabetical l
  else if method = "creation_time" then sortByCreationTime fs l
  else if method = "modification_time" then sortByModificationTime fs l
  else if method = "file_size" then sortByFileSize fs l
  else if method = "file_size_desc" then sortByFileSizeDesc fs l
  else if method = "reverse_alphabetical" then sortReverseAlphabetical l
  else sortRandom fs l

/-- `ImageSorter.sort_files` (lines 34-63).  `Except.error` models a raised
`ValueError`.  The empty check (lines 43-44) precedes the registry check
(lines 46-51).  All sort functions in the registry are total here — the key
extractors already absorb `OSError` (see the getters above) — so the
`except` fallback at lines 60-63 (return the input copy) is unreachable and
does not appear. -/
def sort_files (fs : SortFS) (file_paths : List String) (method : String) :
    Except String (List String) :=
  if file_paths.isEmpty then Except.ok []
  else if !(sortMethodNames.contains method) then
    Except.error ("Неизвестный метод сортировки: " ++ method)
  else
    Except.ok (applySortMethod fs method file_paths)

/-- A trivial filesystem environment (all metadata unavailable, identity
shuffle), used for concrete evaluations. -/
def trivFS : SortFS :=
  { birthtime := fun _ => none, mtime := fun _ => none,
    size := fun _ => none, shuffle := id }

/-! ## ResultFormatter (src/core/result_formatter.py)

The formatter reads the wall clock (`datetime.now()` at lines 54, 121, 167,
322); the rendered timestamp is passed in explicitly as `now`. -/

/-- Python `sep.flatten(lines)`. -/
def joinSep (sep : String) : List String → String
  | [] => ""
  | [x] => x
  | x :: y :: xs => x ++ sep ++ joinSep sep (y :: xs)

/-- Abstraction of Python fixed-decimal float rendering (`%.2f`, `%.1f`,
`%.0f`) over the rational model of floats; no claim inspects the digits. -/
def fmtFloat (q : ℚ) : String := toString q

/-- Abstraction of Python thousands-separated rendering (`format(n, ',')`). -/
def fmtThousands (n : Nat) : String := toString n

/-- Python `sum` over a list of rationals. -/
def listSumQ (l : List ℚ) : ℚ := l.foldl (· + ·) 0

/-- Python `max` over a nonempty list of rationals. -/
def listMaxQ (l : List ℚ) : ℚ := l.foldl max (l.headD 0)

/-- Python `min` over a nonempty list of rationals. -/
def listMinQ (l : List ℚ) : ℚ := l.foldl min (l.headD 0)

/-- Python `sum` over a list of naturals. -/
def listSumN (l : List Nat) : Nat := l.foldl (· + ·) 0

/-- Python `max` over a nonempty list of naturals. -/
def listMaxN (l : List Nat) : Nat := l.foldl max (l.headD 0)

/-- The list comprehension `[r for r in results if r.success]`
(result_formatter.py lines 87, 126, 152, 188, …). -/
def successfulResults (results : List OCRResult) : List OCRResult :=
  results.filter (fun r => r.success)

/-- The list comprehension `[r for r in results if not r.success]`
(lines 88, 189). -/
def failedResults (results : List OCRResult) : List OCRResult :=
  results.filter (fun r => !r.success)

/-- `"=" * 80`. -/
def eq80 : String := repeatChar '=' 80

/-- `_generate_empty_report` (lines 48-63). -/
def generateEmptyReport (now : String) : String :=
  "\n# OCR ОБРАБОТКА - ОТЧЕТ\n\n**Время генерации:** " ++ now ++
  "\n**Статус:** Нет результатов для обработки\n\nНе было найдено файлов для обработки или все файлы завершились с ошибками.\n"

/-- `_generate_header` (lines 160-177). -/
def generateHeader (results : List OCRResult) (now : String) : List String :=
  ["# ОТЧЕТ OCR ОБРАБОТКИ",
   "",
   "**Время обработки:** " ++ now,
   "**Всего файлов:** " ++ toString results.length,
   "**Успешно обработано:** " ++ toString (successfulResults results).length,
   "**Ошибок:** " ++ toString (failedResults results).length,
   ""]

/-- `_generate_statistics` (lines 179-231). -/
def generateStatistics (results : List OCRResult) : List String :=
  let sr := successfulResults results
  let fr := failedResults results
  let base :=
    ["## СТАТИСТИКА ОБРАБОТКИ", "",
     "- Обработано успешно: " ++ toString sr.length,
     "- Завершено с ошибками: " ++ toString fr.length,
     "- Общий процент успеха: " ++ fmtFloat ((sr.length : ℚ) / (results.length : ℚ) * 100) ++ "%"]
  let timeLines :=
    if sr.isEmpty then [] else
      let ts := (sr.filter (fun r => r.processing_time > 0)).map (fun r => r.processing_time)
      if ts.isEmpty then [] else
        ["", "**Время обработки:**",
         "- Среднее время: " ++ fmtFloat (listSumQ ts / (ts.length : ℚ)) ++ "с",
         "- Максимальное время: " ++ fmtFloat (listMaxQ ts) ++ "с",
         "- Минимальное время: " ++ fmtFloat (listMinQ ts) ++ "с"]
  let contentLines :=
    if sr.isEmpty then [] else
      let ls := sr.map (fun r => r.text_content.length)
      if ls.isEmpty then [] else
        ["", "**Извлеченный текст:**",
         "- Общее количество символов: " ++ fmtThousands (listSumN ls),
         "- Среднее количество символов на файл: " ++ fmtFloat ((listSumN ls : ℚ) / (ls.length : ℚ)),
         "- Самый длинный текст: " ++ fmtThousands (listMaxN ls) ++ " символов"]
  base ++ timeLines ++ contentLines ++ [""]

/-- `_format_single_result` (lines 233-271). -/
def formatSingleResult (result : OCRResult) (index : Nat) (include_metadata : Bool) : List String :=
  let filename := basename result.file_path
  (if include_metadata then
    ["## [" ++ toString index ++ "] " ++ filename,
     "",
     "**Путь:** " ++ result.file_path,
     "**Время обработки:** " ++ fmtFloat result.processing_time ++ "с",
     "**Размер текста:** " ++ toString result.text_content.length ++ " символов",
     ""]
  else
    ["## " ++ filename, ""])
  ++ (if strip result.text_content ≠ "" then
        ["**ИЗВЛЕЧЕННЫЙ ТЕКСТ:**", "", strip result.text_content]
      else
        ["*[Текст не обнаружен или файл пуст]*"])
  ++ ["", repeatChar '-' 80, ""]

/-- `_format_error_result` (lines 273-288). -/
def formatErrorResult (result : OCRResult) : List String :=
  ["**" ++ basename result.file_path ++ "**",
   "- Путь: " ++ result.file_path,
   "- Ошибка: " ++ optStr result.error_message,
   "- Время попытки: " ++ fmtFloat result.processing_time ++ "с",
   ""]

/-- `_generate_footer_statistics` (lines 290-325). -/
def generateFooterStatistics (results : List OCRResult) (now : String) : List String :=
  let sr := successfulResults results
  if sr.isEmpty then
    ["", eq80, "# ИТОГОВАЯ СТАТИСТИКА", eq80, "",
     "Не было успешно обработано ни одного файла."]
  else
    let totalChars := listSumN (sr.map (fun r => r.text_content.length))
    let totalTime := listSumQ ((results.filter (fun r => r.processing_time > 0)).map (fun r => r.processing_time))
    ["", eq80, "# ИТОГОВАЯ СТАТИСТИКА", eq80, "",
     "Всего извлечено символов: " ++ fmtThousands totalChars,
     "Общее время обработки: " ++ fmtFloat totalTime ++ "с",
     "Скорость обработки: " ++ fmtFloat (if totalTime > 0 then (totalChars : ℚ) / totalTime else 0) ++ " символов/сек",
     "",
     "Обработка завершена: " ++ now]

/-- `_format_detailed` (lines 65-108). -/
def formatDetailed (results : List OCRResult) (include_metadata : Bool) (now : String) : String :=
  let lines :=
    generateHeader results now
    ++ (if include_metadata then generateStatistics results else [])
    ++ ["\n" ++ eq80, "# ИЗВЛЕЧЕННЫЙ ТЕКСТ", eq80 ++ "\n"]
    ++ ((List.enumFrom 1 (successfulResults results)).map
          (fun p => formatSingleResult p.2 p.1 include_metadata)).flatten
    ++ (if !(failedResults results).isEmpty && include_metadata then
          ["\n" ++ eq80, "# ФАЙЛЫ С ОШИБКАМИ", eq80 ++ "\n"]
          ++ ((failedResults results).map formatErrorResult).flatten
        else [])
    ++ (if include_metadata then generateFooterStatistics results now else [])
  joinSep "\n" lines

/-- `_format_simple` (lines 110-141). -/
def formatSimple (results : List OCRResult) (include_metadata : Bool) (now : String) : String :=
  let header :=
    if include_metadata then ["OCR Обработка - " ++ now, repeatChar '-' 50, ""] else []
  let body :=
    ((List.enumFrom 1 (successfulResults results)).map (fun p =>
      (if include_metadata then
        ["[" ++ toString p.1 ++ "] " ++ basename p.2.file_path, repeatChar '-' 30]
       else [])
      ++ [if strip p.2.text_content ≠ "" then strip p.2.text_content
          else "[Текст не обнаружен]"]
      ++ [""])).flatten
  joinSep "\n" (header ++ body)

/-- `_format_clean_text_only` (lines 143-158). -/
def formatCleanTextOnly (results : List OCRResult) : String :=
  joinSep "\n\n"
    (((successfulResults results).map (fun r => strip r.text_content)).filter (fun t => t ≠ ""))

/-- `ResultFormatter.format_results` (lines 24-46): empty input short-circuits
to the empty report; unknown `format_type` falls back to the detailed
rendering (lines 44-46). -/
def format_results (results : List OCRResult) (include_metadata : Bool)
    (format_type : String) (now : String) : String :=
  if results.isEmpty then generateEmptyReport now
  else if format_type = "detailed" then formatDetailed results include_metadata now
  else if format_type = "simple" then formatSimple results include_metadata now
  else if format_type = "clean" then formatCleanTextOnly results
  else formatDetailed results include_metadata now

/-! ## OnlineOCRProcessor (src/core/online_ocr.py)

The remote LLM client is a per-item, per-attempt oracle:
`Except.error msg` models `response_from_LLM` raising an exception whose
`str` is `msg`; `Except.ok response` models a returned response string. -/

/-- One retry-loop attempt (lines 116-144): a raised exception, or a
response; a falsy/blank response raises
`ValueError("Получен пустой ответ от LLM")` (lines 127, 143-144). -/
def attemptResult (oracle : Nat → Except String String) (attempt : Nat) :
    Except String String :=
  match oracle attempt with
  | Except.ok response =>
    if strip response = "" then Except.error "Получен пустой ответ от LLM"
    else Except.ok response
  | Except.error e => Except.error e

/-- The retry loop of `_process_single_image` (lines 115-156), indexed by the
current 0-based `attempt` and the number of remaining loop iterations
(`range(self.retry_attempts)`).  Returns the successful stripped response (if
any), the last recorded error, and the trace of the backoff sleeps
`(attempt + 1) * 2` seconds (line 149) executed after each failed attempt
except the last one (lines 148-156). -/
def runAttempts (oracle : Nat → Except String String) :
    Nat → Nat → Option String → Option String × Option String × List Nat
  | _, 0, lastError => (none, lastError, [])
  | attempt, remaining + 1, lastError =>
    match attemptResult oracle attempt with
    | Except.ok response => (some (strip response), lastError, [])
    | Except.error e =>
      if remaining = 0 then (none, some e, [])
      else
        let rest := runAttempts oracle (attempt + 1) remaining (some e)
        (rest.1, rest.2.1, ((attempt + 1) * 2) :: rest.2.2)

/-- `_process_single_image` (lines 99-183).  `retry_attempts` is an integer —
`range` of a non-positive value is empty.  The wall-clock spans measured at
lines 107/128/159/171 are abstracted into the single `elapsed` parameter.
When the file does not exist, the `FileNotFoundError` of lines 111-112 is
caught by the outer handler (lines 170-183).  The second component is the
trace of backoff sleeps.  The function returns a result on every input
(matching the source, whose outer `except Exception` catches everything). -/
def processSingleImage (oracle : Nat → Except String String) (retry_attempts : Int)
    (file_exists : Bool) (image_path : String) (elapsed : ℚ) : OCRResult × List Nat :=
  if file_exists = false then
    ({ file_path := image_path, success := false, text_content := "",
       error_message := some ("Критическая ошибка при обработке " ++ image_path ++
         ": Файл не найден: " ++ image_path),
       processing_time := elapsed }, [])
  else
    match runAttempts oracle 0 retry_attempts.toNat none with
    | (some text, _, sleeps) =>
      ({ file_path := image_path, success := true, text_content := text,
         error_message := none, processing_time := elapsed }, sleeps)
    | (none, lastError, sleeps) =>
      ({ file_path := image_path, success := false, text_content := "",
         error_message := some ("Ошибка обработки " ++ image_path ++ ": " ++
           optStr lastError),
         processing_time := elapsed }, sleeps)

/-- Environment of one online batch run: per-item (first index) per-attempt
(second index) remote-call results, file existence, per-item elapsed wall
time, and per-item per-attempt remote-call durations.  The duration exists
only so that timing statements can be made about a run — the code itself
never consults it, which is exactly what claim C4 is about. -/
structure BatchEnv where
  oracle : Nat → Nat → Except String String
  file_exists : String → Bool
  elapsed : Nat → ℚ
  duration : Nat → Nat → ℚ

/-- The value computed by the worker of item `i` (the future submitted at
lines 220-222). -/
def futureResult (env : BatchEnv) (retry_attempts : Int) (image_paths : List String)
    (i : Nat) : OCRResult :=
  (processSingleImage (env.oracle i) retry_attempts
    (env.file_exists (image_paths.getD i ""))
    (image_paths.getD i "") (env.elapsed i)).1

/-- The slot-filling loop of `process_images_batch` (lines 224-255).
`as_completed` yields each future at most once, in an arbitrary completion
order, and only once it has completed; `future.result(timeout=...)` on an
already completed future returns immediately, so the `TimeoutError` branch
(lines 232-241) can never be taken, and `_process_single_image` returns on
every input, so the generic `except` branch (lines 243-252) can never be
taken either.  The loop therefore writes each yielded future's own result
into that future's pre-assigned slot. -/
def collectSlots (fr : Nat → OCRResult) (completion_order : List Nat)
    (slots : List (Option OCRResult)) : List (Option OCRResult) :=
  completion_order.foldl (fun acc index => acc.set index (some (fr index))) slots

/-- `OnlineOCRProcessor.process_images_batch` (lines 185-273).
`completion_order` is the order in which `as_completed` yields the futures
(identified by their `future_to_index` indices); in a real run it is a
permutation of `List.range image_paths.length`, but no property below needs
that.  `timeout` is `self.timeout_seconds`: it is accepted but — as explained
at `collectSlots` — it cannot influence any outcome, so it is as unused here
as it is dead in the source.  After the pool drains, slots still `none` are
replaced by a synthetic failure (lines 257-266). -/
def process_images_batch (env : BatchEnv) (retry_attempts : Int) (timeout : ℚ)
    (image_paths : List String) (completion_order : List Nat) : List OCRResult :=
  let slots := collectSlots (futureResult env retry_attempts image_paths)
    completion_order (List.replicate image_paths.length none)
  (List.range image_paths.length).map (fun i =>
    match slots.getD i none with
    | some r => r
    | none =>
      { file_path := image_paths.getD i "", success := false, text_content := "",
        error_message := some "Неизвестная ошибка: результат не получен",
        processing_time := 0 })

/-- `process_images_batch` together with the construction of its thread pool
(line 216): `ThreadPoolExecutor(max_workers=max_threads)` raises
`ValueError("max_workers must be greater than 0")` when `max_threads ≤ 0`.
This library exception is the only way any of the three configuration values
(`max_threads`, `retry_attempts`, `timeout_seconds`) can fail the run; no
validation step of the processor or coordinator examines them. -/
def process_images_batch_checked (env : BatchEnv) (retry_attempts : Int) (timeout : ℚ)
    (max_threads : Int) (image_paths : List String) (completion_order : List Nat) :
    Except String (List OCRResult) :=
  if max_threads ≤ 0 then Except.error "max_workers must be greater than 0"
  else Except.ok (process_images_batch env retry_attempts timeout image_paths completion_order)

/-! ## Sequential backend: OfflineOCRProcessor.process_image and
OCRProcessor.process_images_offline -/

/-- Environment of an offline run.  `tesseract` abstracts everything between
lines 208-224 of offline_ocr.py (language provisioning, image decoding and
the tesseract call): `Except.error e` is any exception raised there, caught
at line 244 of `process_image`. -/
structure OfflineEnv where
  tesseract : String → Except String String
  file_exists : String → Bool
  supported_formats : List String
  elapsed : String → ℚ

/-- `pathlib.Path(p).suffix`: the last extension of the basename, empty for
plain names and leading-dot names (trailing-dot edge cases approximated). -/
def pathSuffix (p : String) : String :=
  let b := (basename p).data
  let afterRev := b.reverse.takeWhile (fun c => c ≠ '.')
  if afterRev.length = b.length then ""
  else if afterRev.length + 1 = b.length then ""
  else "." ++ String.mk afterRev.reverse

/-- `OfflineOCRProcessor.process_image` (offline_ocr.py lines 186-258): check
existence (lines 200-202), check the extension (lines 204-207), then run the
engine; every raised exception is caught at line 244 into a failed result.
Both branches produce a result whose `file_path` is `image_path`, and the
method never raises. -/
def process_image (env : OfflineEnv) (image_path : String) : OCRResult :=
  if env.file_exists image_path = false then
    { file_path := image_path, success := false, text_content := "",
      error_message := some ("Ошибка обработки " ++ image_path ++
        ": Файл не найден: " ++ image_path),
      processing_time := env.elapsed image_path }
  else if (env.supported_formats.contains (lower (pathSuffix image_path))) = false then
    { file_path := image_path, success := false, text_content := "",
      error_message := some ("Ошибка обработки " ++ image_path ++
        ": Неподдерживаемый формат файла: " ++ lower (pathSuffix image_path)),
      processing_time := env.elapsed image_path }
  else
    match env.tesseract image_path with
    | Except.ok text =>
      { file_path := image_path, success := true, text_content := strip text,
        error_message := none, processing_time := env.elapsed image_path }
    | Except.error e =>
      { file_path := image_path, success := false, text_content := "",
        error_message := some ("Ошибка обработки " ++ image_path ++ ": " ++ e),
        processing_time := env.elapsed image_path }

/-- An observable event of the sequential backend loop: an invocation of the
progress callback (ocr_processor.py lines 182-185), or the completion of one
item's processing (lines 187-191). -/
inductive TraceEntry where
  | progress (current total : Nat) (label : String)
  | processed (path : String)
  deriving DecidableEq

/-- The loop of `OCRProcessor.process_images_offline` (lines 181-202): for the
item at 0-based index `i`, the progress callback fires first, with arguments
`(i + 1, total, basename)` (lines 182-185), and only then is the item
processed (lines 187-191).  `process_image` returns on every input (it
catches all exceptions), so the `except` branch at lines 194-202 is
unreachable and does not appear. -/
def offlineLoop (env : OfflineEnv) (total : Nat) :
    Nat → List String → List OCRResult × List TraceEntry
  | _, [] => ([], [])
  | i, p :: rest =>
    let r := process_image env p
    let next := offlineLoop env total (i + 1) rest
    (r :: next.1,
     TraceEntry.progress (i + 1) total (basename p) :: TraceEntry.processed p :: next.2)

/-- `OCRProcessor.process_images_offline` (lines 167-205): the ordered result
list and the trace of progress-callback invocations interleaved with item
completions, in program order. -/
def process_images_offline (env : OfflineEnv) (image_paths : List String) :
    List OCRResult × List TraceEntry :=
  offlineLoop env image_paths.length 0 image_paths

/-! ## Concrete sample data, used by witnesses and counterexamples -/

/-- A successful sample outcome. -/
def rA : OCRResult :=
  { file_path := "a.png", success := true, text_content := "hi",
    error_message := none, processing_time := 1 }

/-- A failed sample outcome. -/
def rB : OCRResult :=
  { file_path := "b.png", success := false, text_content := "",
    error_message := some "boom", processing_time := 2 }

/-- Out-of-range fallback for `List.getD` in claim statements; every access
below is guarded by an index bound, so it is never actually produced. -/
def dummyResult : OCRResult :=
  { file_path := "", success := false, text_content := "" }

/-- Online environment whose remote call always returns `"text"` but whose
every attempt takes 100 seconds of wall time. -/
def slowEnv : BatchEnv :=
  { oracle := fun _ _ => Except.ok "text", file_exists := fun _ => true,
    elapsed := fun _ => 100, duration := fun _ _ => 100 }

/-- A remote-call oracle whose attempt 0 raises and whose later attempts
return `" hi "`. -/
def retryOracle : Nat → Except String String :=
  fun a => if a = 0 then Except.error "boom" else Except.ok " hi "

/-- Offline environment whose engine always succeeds with `" t "`. -/
def oenvA : OfflineEnv :=
  { tesseract := fun _ => Except.ok " t ", file_exists := fun _ => true,
    supported_formats := [".png"], elapsed := fun _ => 1 }

/-! ## Theorems -/

/-- C9: for the empty path list, `sort_files` returns the empty list for
every method argument, registered or not: the empty-input check at lines
43-44 of image_sorter.py precedes the registry check at lines 46-51, so the
unknown-method `ValueError` is never raised on empty input. -/
theorem claim_C9 (fs : SortFS) (method : String) :
    sort_files fs [] method = Except.ok [] := rfl

/-- The claim of C2, as stated, is false: `sort_files` on a non-empty list
with a strategy name outside the registry raises `ValueError`
(image_sorter.py lines 46-51). -/
theorem claim_C2_counterexample :
    sort_files trivFS ["a.png"] "bogus"
      = Except.error "Неизвестный метод сортировки: bogus" := rfl

/-- C2 (amended): for every strategy name in the registry, `sort_files`
returns normally on every input (individual key-extraction failures are
absorbed inside the key getters, so no registered sort function can raise);
only an unregistered strategy name on non-empty input raises. -/
theorem claim_C2 (fs : SortFS) (paths : List String) (method : String)
    (h : method ∈ sortMethodNames) :
    ∃ l, sort_files fs paths method = Except.ok l := by
  unfold sort_files
  by_cases hp : paths.isEmpty
  · exact ⟨[], by rw [if_pos hp]⟩
  · refine ⟨applySortMethod fs method paths, ?_⟩
    rw [if_neg hp, if_neg (by simp [h])]

/-- Witness for C2 at a concrete registered strategy. -/
theorem claim_C2_witness :
    ∃ l, sort_files trivFS ["b.png", "a.png"] "alphabetical" = Except.ok l :=
  claim_C2 trivFS ["b.png", "a.png"] "alphabetical" (by decide)

/-- The claim of C10, that unknown format types fall back to the detailed
rendering without raising (result_formatter.py lines 44-46). -/
theorem claim_C10 (results : List OCRResult) (meta : Bool) (format_type now : String)
    (hne : results ≠ []) (h1 : format_type ≠ "detailed") (h2 : format_type ≠ "simple")
    (h3 : format_type ≠ "clean") :
    format_results results meta format_type now = formatDetailed results meta now := by
  have h : results.isEmpty = false := List.isEmpty_eq_false.mpr hne
  simp [format_results, h, h1, h2, h3]

/-- Witness for C10 at a concrete unknown format type. -/
theorem claim_C10_witness :
    format_results [rA] true "xml" "T" = formatDetailed [rA] true "T" :=
  claim_C10 [rA] true "xml" "T" (by decide) (by decide) (by decide) (by decide)

/-- The claim of C7, as stated, is false: the rendering embeds the wall-clock
timestamp (`datetime.now()` at result_formatter.py lines 121, 167, 322), so
two invocations at different clock readings differ on the same outcomes,
format type and metadata flag. -/
theorem claim_C7_counterexample :
    format_results [rA] true "simple" "T1" ≠ format_results [rA] true "simple" "T2" := by
  decide

/-- C7 (amended): each rendering is deterministic given the outcome list, the
format type, the metadata flag AND the clock reading; the text-only `clean`
rendering of a non-empty outcome list is moreover independent of both the
clock and the metadata flag. -/
theorem claim_C7 (results : List OCRResult) (m1 m2 : Bool) (now1 now2 : String)
    (hne : results ≠ []) :
    format_results results m1 "clean" now1 = format_results results m2 "clean" now2 := by
  have h : results.isEmpty = false := List.isEmpty_eq_false.mpr hne
  simp [format_results, h]

/-- Witness for C7 at concrete distinct clock readings and metadata flags. -/
theorem claim_C7_witness :
    format_results [rA] true "clean" "T1" = format_results [rA] false "clean" "T2" :=
  claim_C7 [rA] true false "T1" "T2" (by decide)

/-- C8: an empty outcome list yields the fixed "no results" report (a
non-trivial artifact wrapping the timestamp) without raising, and in the
detailed rendering the failed-items section iterates exactly the outcomes
with `success = false` while the succeeded-items section iterates exactly
those with `success = true`, the two being disjoint. -/
theorem claim_C8 (results : List OCRResult) (r : OCRResult) (meta : Bool)
    (format_type now : String) :
    format_results [] meta format_type now = generateEmptyReport now
    ∧ (∃ pre post, generateEmptyReport now = pre ++ (now ++ post)
        ∧ pre ≠ "" ∧ post ≠ "")
    ∧ (r ∈ failedResults results ↔ r ∈ results ∧ r.success = false)
    ∧ (r ∈ successfulResults results ↔ r ∈ results ∧ r.success = true)
    ∧ ¬(r ∈ successfulResults results ∧ r ∈ failedResults results) := by
  refine ⟨rfl,
    ⟨"\n# OCR ОБРАБОТКА - ОТЧЕТ\n\n**Время генерации:** ",
     "\n**Статус:** Нет результатов для обработки\n\nНе было найдено файлов для обработки или все файлы завершились с ошибками.\n",
     rfl, by decide, by decide⟩, ?_, ?_, ?_⟩
  · simp [failedResults, List.mem_filter]
  · simp [successfulResults, List.mem_filter]
  · rintro ⟨h1, h2⟩
    rw [successfulResults, List.mem_filter] at h1
    rw [failedResults, List.mem_filter] at h2
    rw [h1.2] at h2
    simp at h2

/-- The trace of the sequential loop: for the item of 0-based index `i`, a
progress event `(i + 1, total, basename)` is emitted first, and the item is
processed after it. -/
theorem offlineLoop_trace (env : OfflineEnv) (total : Nat) :
    ∀ (rest : List String) (i : Nat),
    (offlineLoop env total i rest).2
      = ((List.enumFrom (i + 1) rest).map
          (fun p => [TraceEntry.progress p.1 total (basename p.2),
                     TraceEntry.processed p.2])).flatten := by
  intro rest
  induction rest with
  | nil => intro i; rfl
  | cons p ps ih => intro i; simp [offlineLoop, List.enumFrom_cons, ih]

/-- The claim of C6, as stated, is false: in the sequential backend the
progress callback for an item fires BEFORE that item is processed
(ocr_processor.py lines 182-185 precede lines 187-191), not after it: on a
one-item batch the trace is progress-then-processed, not
processed-then-progress. -/
theorem claim_C6_counterexample :
    (process_images_offline oenvA ["a.png"]).2
      = [TraceEntry.progress 1 1 "a.png", TraceEntry.processed "a.png"]
    ∧ (process_images_offline oenvA ["a.png"]).2
      ≠ [TraceEntry.processed "a.png", TraceEntry.progress 1 1 "a.png"] := by
  decide

/-- C6 (amended): the sequential backend emits exactly one progress event per
item, with label the item's basename and counter `i + 1`, emitted immediately
BEFORE that item's processing (and after the previous item's processing
finished). -/
theorem claim_C6 (env : OfflineEnv) (paths : List String) :
    (process_images_offline env paths).2
      = ((List.enumFrom 1 paths).map
          (fun p => [TraceEntry.progress p.1 paths.length (basename p.2),
                     TraceEntry.processed p.2])).flatten :=
  offlineLoop_trace env paths.length paths 0

/-- Both branches of `_process_single_image` stamp the result with the
argument path. -/
theorem processSingleImage_file_path (oracle : Nat → Except String String)
    (retry_attempts : Int) (file_exists : Bool) (image_path : String) (elapsed : ℚ) :
    (processSingleImage oracle retry_attempts file_exists image_path elapsed).1.file_path
      = image_path := by
  unfold processSingleImage
  split
  · rfl
  · split <;> rfl

/-- The worker of item `i` produces a result stamped with the `i`-th path. -/
theorem futureResult_file_path (env : BatchEnv) (retry_attempts : Int)
    (image_paths : List String) (i : Nat) :
    (futureResult env retry_attempts image_paths i).file_path = image_paths.getD i "" :=
  processSingleImage_file_path ..

/-- Slot writes preserve the slot-array length. -/
theorem collectSlots_length (fr : Nat → OCRResult) :
    ∀ (order : List Nat) (slots : List (Option OCRResult)),
    (collectSlots fr order slots).length = slots.length := by
  intro order
  induction order with
  | nil => intro slots; rfl
  | cons j rest ih =>
    intro slots
    have hstep : collectSlots fr (j :: rest) slots
        = collectSlots fr rest (slots.set j (some (fr j))) := rfl
    rw [hstep, ih, List.length_set]

/-- After the slot-filling loop, slot `i` holds either its initial value or
the result of worker `i` — never the result of a different worker,
independently of the completion order. -/
theorem collectSlots_getD (fr : Nat → OCRResult) :
    ∀ (order : List Nat) (slots : List (Option OCRResult)) (i : Nat),
    (collectSlots fr order slots).getD i none = slots.getD i none
    ∨ (collectSlots fr order slots).getD i none = some (fr i) := by
  intro order
  induction order with
  | nil => intro slots i; exact Or.inl rfl
  | cons j rest ih =>
    intro slots i
    have hstep : collectSlots fr (j :: rest) slots
        = collectSlots fr rest (slots.set j (some (fr j))) := rfl
    rw [hstep]
    rcases ih (slots.set j (some (fr j))) i with h | h
    · rw [h, List.getD_eq_getElem?_getD, List.getElem?_set]
      by_cases hji : j = i
      · subst hji
        by_cases hlt : j < slots.length
        · simp [hlt]
        · have hnone : slots[j]? = none := List.getElem?_eq_none (by omega)
          simp [hlt, List.getD_eq_getElem?_getD, hnone]
      · simp [hji, List.getD_eq_getElem?_getD]
    · exact Or.inr h

/-- The concurrent batch produces one outcome per input item. -/
theorem process_images_batch_length (env : BatchEnv) (retry_attempts : Int)
    (timeout : ℚ) (image_paths : List String) (completion_order : List Nat) :
    (process_images_batch env retry_attempts timeout image_paths completion_order).length
      = image_paths.length := by
  unfold process_images_batch
  simp

/-- Every outcome slot of the concurrent batch is stamped with its own input
path, for every completion order. -/
theorem process_images_batch_file_path (env : BatchEnv) (retry_attempts : Int)
    (timeout : ℚ) (image_paths : List String) (completion_order : List Nat)
    (i : Nat) (hi : i < image_paths.length) :
    ((process_images_batch env retry_attempts timeout image_paths completion_order).getD
        i dummyResult).file_path = image_paths.getD i "" := by
  unfold process_images_batch
  rw [List.getD_eq_getElem?_getD, List.getElem?_map, List.getElem?_range hi]
  simp only [Option.map_some', Option.getD_some]
  rcases collectSlots_getD (futureResult env retry_attempts image_paths)
      completion_order (List.replicate image_paths.length none) i with h | h
  · have hrep : (List.replicate image_paths.length (none : Option OCRResult)).getD i none
        = none := by
      rw [List.getD_eq_getElem?_getD, List.getElem?_replicate]
      split <;> rfl
    rw [h, hrep]
  · rw [h]
    exact futureResult_file_path ..

/-- The sequential loop returns exactly the per-item results, in input
order. -/
theorem offlineLoop_results (env : OfflineEnv) (total : Nat) :
    ∀ (rest : List String) (i : Nat),
    (offlineLoop env total i rest).1 = rest.map (process_image env) := by
  intro rest
  induction rest with
  | nil => intro i; rfl
  | cons p ps ih => intro i; simp [offlineLoop, ih]

/-- Both branches of the offline `process_image` stamp the result with the
argument path. -/
theorem process_image_file_path (env : OfflineEnv) (p : String) :
    (process_image env p).file_path = p := by
  unfold process_image
  split
  · rfl
  · split
    · rfl
    · split <;> rfl

/-- C1: for every input path list and both backends, the outcome list has
the same length as the input and the outcome at position `i` is the outcome
of input item `i` (its `file_path` is the `i`-th input path), independently
of the completion order of the concurrent workers; so every item yields
exactly one outcome. -/
theorem claim_C1 (env : BatchEnv) (retry_attempts : Int) (timeout : ℚ)
    (oenv : OfflineEnv) (paths : List String) (completion_order : List Nat)
    (i : Nat) (hi : i < paths.length) :
    (process_images_batch env retry_attempts timeout paths completion_order).length
      = paths.length
    ∧ (process_images_offline oenv paths).1.length = paths.length
    ∧ ((process_images_batch env retry_attempts timeout paths completion_order).getD
        i dummyResult).file_path = paths.getD i ""
    ∧ ((process_images_offline oenv paths).1.getD i dummyResult).file_path
        = paths.getD i "" := by
  refine ⟨process_images_batch_length .., ?_,
    process_images_batch_file_path env retry_attempts timeout paths completion_order i hi,
    ?_⟩
  · unfold process_images_offline
    rw [offlineLoop_results, List.length_map]
  · unfold process_images_offline
    rw [offlineLoop_results, List.getD_eq_getElem?_getD, List.getElem?_map,
      List.getElem?_eq_getElem hi]
    simp only [Option.map_some', Option.getD_some]
    rw [process_image_file_path, List.getD_eq_getElem?_getD,
      List.getElem?_eq_getElem hi]
    rfl

/-- Witness for C1 on a concrete two-item batch collected in reverse
completion order. -/
theorem claim_C1_witness :
    (process_images_batch slowEnv 3 1 ["a.png", "b.png"] [1, 0]).length = 2
    ∧ ((process_images_batch slowEnv 3 1 ["a.png", "b.png"] [1, 0]).getD
        1 dummyResult).file_path = "b.png"
    ∧ ((process_images_offline oenvA ["a.png", "b.png"]).1.getD
        1 dummyResult).file_path = "b.png" := by
  have h := claim_C1 slowEnv 3 1 oenvA ["a.png", "b.png"] [1, 0] 1 (by decide)
  exact ⟨h.1, by rw [h.2.2.1]; rfl, by rw [h.2.2.2]; rfl⟩

/-- The retry loop consults the oracle only on the attempts it runs: two
oracles that agree on the attempt window produce the same loop result. -/
theorem runAttempts_congr (o1 o2 : Nat → Except String String) :
    ∀ (remaining attempt : Nat) (lastError : Option String),
    (∀ k, k < remaining → o1 (attempt + k) = o2 (attempt + k)) →
    runAttempts o1 attempt remaining lastError
      = runAttempts o2 attempt remaining lastError := by
  intro remaining
  induction remaining with
  | zero => intro attempt le h; rfl
  | succ r ih =>
    intro attempt le h
    have h0 : o1 attempt = o2 attempt := by
      have := h 0 (by omega)
      simpa using this
    have ha : attemptResult o1 attempt = attemptResult o2 attempt := by
      unfold attemptResult
      rw [h0]
    have hih : ∀ le2 : Option String,
        runAttempts o1 (attempt + 1) r le2 = runAttempts o2 (attempt + 1) r le2 := by
      intro le2
      apply ih
      intro k hk
      have := h (k + 1) (by omega)
      rwa [show attempt + (k + 1) = attempt + 1 + k by omega] at this
    conv_lhs => rw [runAttempts]
    conv_rhs => rw [runAttempts]
    rw [ha]
    cases hA : attemptResult o2 attempt with
    | ok resp => rfl
    | error e => simp only [hih]

/-- When every attempt before the last one fails and the last attempt
succeeds, the loop returns the stripped final response and one backoff sleep
of `(attempt + 1) * 2` seconds per failed attempt. -/
theorem runAttempts_success (oracle : Nat → Except String String) :
    ∀ (remaining : Nat) (attempt : Nat) (lastError : Option String) (resp : String),
    1 ≤ remaining →
    (∀ k, k < remaining - 1 → ∃ e, attemptResult oracle (attempt + k) = Except.error e) →
    attemptResult oracle (attempt + (remaining - 1)) = Except.ok resp →
    ∃ le2, runAttempts oracle attempt remaining lastError
      = (some (strip resp), le2,
         (List.range (remaining - 1)).map (fun k => (attempt + k + 1) * 2)) := by
  intro remaining
  induction remaining with
  | zero => intro attempt le resp h1; omega
  | succ r ih =>
    intro attempt le resp _ hfail hok
    cases r with
    | zero =>
      refine ⟨le, ?_⟩
      rw [show attempt + (0 + 1 - 1) = attempt by omega] at hok
      simp [runAttempts, hok]
    | succ r2 =>
      obtain ⟨e, he⟩ := hfail 0 (by omega)
      rw [show attempt + 0 = attempt by omega] at he
      obtain ⟨le2, hrec⟩ := ih (attempt + 1) (some e) resp (by omega)
        (fun k hk => by
          obtain ⟨e2, he2⟩ := hfail (k + 1) (by omega)
          exact ⟨e2, by rwa [show attempt + (k + 1) = attempt + 1 + k by omega] at he2⟩)
        (by rwa [show attempt + (r2 + 1 + 1 - 1) = attempt + 1 + (r2 + 1 - 1) by omega] at hok)
      refine ⟨le2, ?_⟩
      conv_lhs => rw [runAttempts]
      rw [he]
      show (if r2 + 1 = 0 then ((none : Option String), some e, ([] : List Nat))
            else ((runAttempts oracle (attempt + 1) (r2 + 1) (some e)).1,
                  (runAttempts oracle (attempt + 1) (r2 + 1) (some e)).2.1,
                  ((attempt + 1) * 2) ::
                    (runAttempts oracle (attempt + 1) (r2 + 1) (some e)).2.2))
        = (some (strip resp), le2,
           (List.range (r2 + 1 + 1 - 1)).map (fun k => (attempt + k + 1) * 2))
      rw [if_neg (Nat.succ_ne_zero r2), hrec]
      show (some (strip resp), le2,
            ((attempt + 1) * 2) ::
              (List.range r2).map (fun k => (attempt + 1 + k + 1) * 2))
        = (some (strip resp), le2,
           (List.range (r2 + 1)).map (fun k => (attempt + k + 1) * 2))
      refine congrArg (fun l => ((some (strip resp) : Option String), le2, l)) ?_
      rw [List.range_succ_eq_map, List.map_cons, List.map_map]
      refine congrArg₂ List.cons
        (show (attempt + 1) * 2 = (attempt + 0 + 1) * 2 by omega) ?_
      refine congrArg (fun f => List.map f (List.range r2)) ?_
      funext k
      simp only [Function.comp_apply]
      omega

/-- C3: at most `retry_limit` attempts are made (the result only depends on
the oracle's answers for attempts `< retry_limit`); each failed attempt
before the last sleeps `(attempt + 1) * 2` seconds — a backoff linearly
scaled by the 1-based attempt number with base delay 2 (online_ocr.py line
149); and an item whose first `retry_limit - 1` attempts raise but whose
final attempt returns a non-blank response ends successfully, with the
stripped non-empty response as its text and no residual error message. -/
theorem claim_C3 (oracle oracle2 : Nat → Except String String) (n : Nat) (hn : 1 ≤ n)
    (resp : String) (hresp : strip resp ≠ "")
    (hfail : ∀ a, a < n - 1 → ∃ e, oracle a = Except.error e)
    (hlast : oracle (n - 1) = Except.ok resp)
    (path : String) (el : ℚ)
    (hagree : ∀ a, a < n → oracle2 a = oracle a) :
    (processSingleImage oracle (n : Int) true path el).1.success = true
    ∧ (processSingleImage oracle (n : Int) true path el).1.text_content = strip resp
    ∧ (processSingleImage oracle (n : Int) true path el).1.text_content ≠ ""
    ∧ (processSingleImage oracle (n : Int) true path el).1.error_message = none
    ∧ (processSingleImage oracle (n : Int) true path el).2
        = (List.range (n - 1)).map (fun a => (a + 1) * 2)
    ∧ processSingleImage oracle2 (n : Int) true path el
        = processSingleImage oracle (n : Int) true path el := by
  have hA : ∀ k, k < n - 1 → ∃ e, attemptResult oracle (0 + k) = Except.error e := by
    intro k hk
    obtain ⟨e, he⟩ := hfail k hk
    refine ⟨e, ?_⟩
    unfold attemptResult
    rw [Nat.zero_add, he]
  have hO : attemptResult oracle (0 + (n - 1)) = Except.ok resp := by
    unfold attemptResult
    rw [Nat.zero_add, hlast]
    exact if_neg hresp
  obtain ⟨le2, hrun⟩ := runAttempts_success oracle n 0 none resp hn hA hO
  have htn : ((n : Int)).toNat = n := Int.toNat_natCast n
  have hbody : processSingleImage oracle (n : Int) true path el
      = ({ file_path := path, success := true, text_content := strip resp,
           error_message := none, processing_time := el },
         (List.range (n - 1)).map (fun k => (0 + k + 1) * 2)) := by
    unfold processSingleImage
    rw [if_neg (by simp), htn, hrun]
  have hzero : (List.range (n - 1)).map (fun k => (0 + k + 1) * 2)
      = (List.range (n - 1)).map (fun a => (a + 1) * 2) := by
    refine congrArg (fun f => List.map f (List.range (n - 1))) ?_
    funext k
    omega
  refine ⟨by rw [hbody], by rw [hbody], by rw [hbody]; exact hresp, by rw [hbody],
    by rw [hbody]; exact hzero, ?_⟩
  have hcongr : runAttempts oracle2 0 n none = runAttempts oracle 0 n none := by
    apply runAttempts_congr
    intro k hk
    have := hagree (0 + k) (by omega)
    simpa using this
  unfold processSingleImage
  rw [htn, hcongr]

/-- Witness for C3: two attempts, the first raises, the second returns a
padded non-blank response; the item ends successfully with stripped text,
no residual error, and one backoff sleep of 2 seconds. -/
theorem claim_C3_witness :
    (processSingleImage retryOracle (((2 : Nat)) : Int) true "a.png" 1).1.success = true
    ∧ (processSingleImage retryOracle (((2 : Nat)) : Int) true "a.png" 1).1.text_content = "hi"
    ∧ (processSingleImage retryOracle (((2 : Nat)) : Int) true "a.png" 1).1.error_message = none
    ∧ (processSingleImage retryOracle (((2 : Nat)) : Int) true "a.png" 1).2 = [2] := by
  have h := claim_C3 retryOracle retryOracle 2 (by omega) " hi " (by decide)
    (fun a ha => ⟨"boom", by
      have ha0 : a = 0 := by omega
      rw [ha0]; rfl⟩)
    rfl "a.png" 1 (fun a _ => rfl)
  refine ⟨h.1, ?_, h.2.2.2.1, ?_⟩
  · rw [h.2.1]; decide
  · rw [h.2.2.2.2.1]; decide

/-- The claim of C4, as stated, is false: even when every attempt's
remote-call duration exceeds the configured timeout, the item's terminal
outcome is whatever the call produced (here: a success), never a synthetic
timeout failure — because `future.result(timeout=...)` is only invoked on
futures that `as_completed` has already yielded as completed, the
`TimeoutError` branch of online_ocr.py lines 232-241 is unreachable. -/
theorem claim_C4_counterexample :
    slowEnv.duration 0 0 > 1 ∧ slowEnv.duration 0 1 > 1 ∧ slowEnv.duration 0 2 > 1
    ∧ process_images_batch slowEnv 3 1 ["a.png"] [0]
      = [{ file_path := "a.png", success := true, text_content := "text",
           error_message := none, processing_time := 100 }] := by
  decide

/-- C4 (amended): the configured timeout has no effect whatsoever on the
batch outcome (remote-call attempts are not bounded by it; the dead
`TimeoutError` branch can never record a timeout outcome); the batch still
completes with exactly one outcome per item. -/
theorem claim_C4 (env : BatchEnv) (retry_attempts : Int) (t1 t2 : ℚ)
    (paths : List String) (completion_order : List Nat) :
    process_images_batch env retry_attempts t1 paths completion_order
      = process_images_batch env retry_attempts t2 paths completion_order
    ∧ (process_images_batch env retry_attempts t1 paths completion_order).length
      = paths.length :=
  ⟨rfl, process_images_batch_length ..⟩

/-- The claim of C5, as stated, is false: a batch run with `retry_limit = -1`
and `timeout = 0` does not fail with a configuration error — it completes
normally and produces an outcome (a per-item failure recording `None` as the
last error, since the empty retry loop never ran). -/
theorem claim_C5_counterexample :
    process_images_batch_checked slowEnv (-1) 0 5 ["a.png"] [0]
      = Except.ok [{ file_path := "a.png", success := false, text_content := "",
                     error_message := some "Ошибка обработки a.png: None",
                     processing_time := 100 }] := rfl

/-- C5 (amended): no entry validation of the configuration exists; every
`retry_limit` (including negative) and every `timeout` (including
non-positive) is accepted silently, and the only configuration value that
can fail the run is `max_concurrency < 1` — rejected not by a coordinator
check but by the thread-pool library itself when the executor is built. -/
theorem claim_C5 (env : BatchEnv) (retry_attempts : Int) (timeout : ℚ)
    (max_threads : Int) (paths : List String) (completion_order : List Nat) :
    (0 < max_threads →
      process_images_batch_checked env retry_attempts timeout max_threads paths
          completion_order
        = Except.ok (process_images_batch env retry_attempts timeout paths
            completion_order))
    ∧ (max_threads ≤ 0 →
      process_images_batch_checked env retry_attempts timeout max_threads paths
          completion_order
        = Except.error "max_workers must be greater than 0") := by
  constructor
  · intro h
    unfold process_images_batch_checked
    rw [if_neg (by omega)]
  · intro h
    unfold process_images_batch_checked
    rw [if_pos h]

/-- Witness for C5 at concrete configurations on both sides of the
thread-pool check. -/
theorem claim_C5_witness :
    process_images_batch_checked slowEnv (-1) 0 5 ["a.png"] [0]
      = Except.ok (process_images_batch slowEnv (-1) 0 ["a.png"] [0])
    ∧ process_images_batch_checked slowEnv (-1) 0 0 ["a.png"] [0]
      = Except.error "max_workers must be greater than 0" :=
  ⟨(claim_C5 slowEnv (-1) 0 5 ["a.png"] [0]).1 (by omega),
   (claim_C5 slowEnv (-1) 0 0 ["a.png"] [0]).2 (by omega)⟩

end OCR
